import Mathlib

/-!
Shallow embedding of the TEMU printer-manager repository (Python sources
printer_panel.py, local_printer_interface.py, print_logger.py) and proofs
about its SKU resolution, PDF geometry analysis, Ghostscript command
construction, print-flow control and CSV print log.

Numeric literals of the Python sources are modelled as exact rationals;
filesystem, PDF-library and subprocess effects are modelled as explicit
oracle functions carried in environment records.
-/

namespace PrinterManager

/-- Characters of a string lowercased; models Python str.lower() (ASCII range). -/
def lowerData (s : String) : List Char := s.data.map Char.toLower

/-- Models Python sku.lower().endswith(".pdf") (local_printer_interface.get_sku_info, line 41). -/
def hasPdfSfx (s : String) : Bool :=
  match (lowerData s).reverse with
  | 'f' :: 'd' :: 'p' :: '.' :: _ => true
  | _ => false

/-- Models Python file_name.endswith(".pdf") (case sensitive, printer_panel._set_file, line 103). -/
def hasPdfSfxExact (s : String) : Bool :=
  match s.data.reverse with
  | 'f' :: 'd' :: 'p' :: '.' :: _ => true
  | _ => false

/-- os.path.join modelled with a fixed separator. -/
def pathJoin (d f : String) : String := d ++ "/" ++ f

/-- os.path.basename modelled over the same separator. -/
def baseName (s : String) : String := (s.splitOn "/").getLastD s

/-- Floor of a rational number. -/
def ratFloor (q : ℚ) : ℤ := ⌊q⌋

/-- Round half to even to an integer, the rounding used by Python round(). -/
def roundHalfEven (q : ℚ) : ℤ :=
  let f := ratFloor q
  let r := q - (f : ℚ)
  if r < 1/2 then f
  else if 1/2 < r then f + 1
  else if f % 2 = 0 then f else f + 1

/-- Python round(x, 2). -/
def round2 (q : ℚ) : ℚ := (roundHalfEven (q * 100) : ℚ) / 100

/-- Python round(x, 1). -/
def round1 (q : ℚ) : ℚ := (roundHalfEven (q * 10) : ℚ) / 10

/-- Python int() truncation toward zero on a rational. -/
def ratTrunc (q : ℚ) : ℤ := if q < 0 then -⌊-q⌋ else ⌊q⌋

/-! ## Syntactic model of the base_gs_command list literal

local_printer_interface.py lines 289-316 bind base_gs_command to a list
literal.  Between its elements, at source lines 311-313, stand three plain
assignment statements (offset_x_points = ..., offset_y_points = ...,
scale_factor = ...).  We record the kind of each item written between the
brackets, in source order. -/

/-- Kind of an item written inside a Python list display: an expression, or an
assignment statement (which the Python grammar does not admit there). -/
inductive PyItem
  | exprItem
  | assignStmt
  deriving DecidableEq, Repr

/-- The seventeen items written between the brackets of the base_gs_command
list literal of local_printer_interface.print_sku_locally (lines 289-316),
in source order: twelve expression items (gs_path through the Policies
string), the three assignment statements of lines 311-313, then the
PageOffset f-string and "-f". -/
def base_gs_command_items : List PyItem :=
  [.exprItem, .exprItem, .exprItem, .exprItem, .exprItem, .exprItem, .exprItem,
   .exprItem, .exprItem, .exprItem, .exprItem, .exprItem,
   .assignStmt, .assignStmt, .assignStmt,
   .exprItem, .exprItem]

/-- Python grammar rule: every item of a list display must be an expression;
an assignment statement between the brackets is a SyntaxError. -/
def pyListDisplayOk (items : List PyItem) : Bool :=
  items.all (fun i => i = PyItem.exprItem)

/-- A Python module is importable only if every statement of it parses; the
base_gs_command list display is the parse obstacle of
local_printer_interface.py, so the module compiles exactly when that list
display is grammatical. -/
def local_printer_interface_loads : Bool :=
  pyListDisplayOk base_gs_command_items

/-- The modules named in the import statements of printer_panel.py. -/
def printer_panel_imports : List String :=
  ["win32print", "os", "fitz", "PySide6.QtWidgets", "PySide6.QtCore", "typing",
   "pathlib", "subprocess", "sys", "print_logger", "PySide6.QtGui"]

/-! ## Ghostscript command model

Arguments that embed numbers are kept structured, so that the numeric
payloads of the f-strings of the sources stay exact rationals. -/

/-- One argument of a Ghostscript invocation.  flagArg holds an argument that
is a fixed literal string; outputFile stands for "-sOutputFile=%printer%" ++
printer; numCopies for "-dNumCopies=" ++ n; widthPoints / heightPoints for
"-dDEVICEWIDTHPOINTS=" / "-dDEVICEHEIGHTPOINTS=" with the rational value;
orientFlag for "-dORIENT1=1" when landscape else "-dORIENT1=0";
pageSizePolicy for the fixed string "<< /Policies << /PageSize 3 >> >>
setpagedevice"; offsetScale x y s for the PostScript fragment "<< /PageOffset
[x y] /BeginPage ... s dup scale ... >> setpagedevice". -/
inductive GsArg
  | toolPath (p : String)
  | flagArg (s : String)
  | outputFile (printer : String)
  | numCopies (n : ℤ)
  | widthPoints (w : ℚ)
  | heightPoints (h : ℚ)
  | orientFlag (landscape : Bool)
  | pageSizePolicy
  | offsetScale (x y scale : ℚ)
  | inputFile (p : String)
  deriving DecidableEq, Repr

/-- 72.0 / 2.54, the points-per-centimeter factor of
local_printer_interface.print_sku_locally (line 268). -/
def pointsPerCm : ℚ := 72.0 / 2.54

/-- 2.54 / 72.0, the centimeters-per-point factor of
local_printer_interface.get_sku_info (line 59). -/
def cmPerPoint : ℚ := 2.54 / 72.0

/-- The uniform content scale factor 0.982 embedded in every PageOffset
fragment of both sources. -/
def gsScale : ℚ := 0.982

/-- offset_x_points = 2.8 * (72.0/2.54) of local_printer_interface line 311. -/
def ifaceOffX : ℚ := 2.8 * (72.0 / 2.54)

/-- offset_y_points = -1.0 * (72.0/2.54) of local_printer_interface line 312. -/
def ifaceOffY : ℚ := -1.0 * (72.0 / 2.54)

/-- The literal 2.834645669291339 of printer_panel._print_file
(lines 162-167, 212-219), a decimal approximation of 72/25.4 mm-to-point. -/
def mmToPtLit : ℚ := 2.834645669291339

/-- The literal 0.352778 of printer_panel._analyze_and_update_size
(lines 269-270). -/
def panelFactor : ℚ := 0.352778

/-- 2.8 * 2.834645669291339, the PageOffset x payload of printer_panel. -/
def panelOffX : ℚ := 2.8 * mmToPtLit

/-- -(1 * 2.834645669291339): printer_panel writes a literal minus sign in
front of the interpolated product 1 * 2.834645669291339. -/
def panelOffY : ℚ := -(1 * mmToPtLit)

/-- The Ghostscript argument list built by
local_printer_interface.print_sku_locally (lines 289-318 for the main job,
350-364 for the separator job): base_gs_command with the input path after
"-f".  The w and h parameters receive width_cm * pointsPerCm and
height_cm * pointsPerCm. -/
def interfaceCommand (gs printer : String) (copies : ℤ) (w h : ℚ)
    (landscape : Bool) (file : String) : List GsArg :=
  [.toolPath gs,
   .flagArg "-dNOPAUSE",
   .flagArg "-dBATCH",
   .flagArg "-dSAFER",
   .flagArg "-sDEVICE=mswinpr2",
   .outputFile printer,
   .numCopies copies,
   .widthPoints w,
   .heightPoints h,
   .orientFlag landscape,
   .flagArg "-c",
   .pageSizePolicy,
   .offsetScale ifaceOffX ifaceOffY gsScale,
   .flagArg "-f",
   .inputFile file]

/-- The Ghostscript argument list built by printer_panel._print_file
(lines 154-170 for the main job, 206-222 for the separator job).  Device
width/height are width_mm * 2.834645669291339 with the millimeter values
already truncated to integers. -/
def panelCommand (gs printer : String) (copies wMM hMM : ℤ)
    (landscape : Bool) (file : String) : List GsArg :=
  [.toolPath gs,
   .flagArg "-dNOPAUSE",
   .flagArg "-dBATCH",
   .flagArg "-dSAFER",
   .flagArg "-sDEVICE=mswinpr2",
   .outputFile printer,
   .numCopies copies,
   .widthPoints ((wMM : ℚ) * mmToPtLit),
   .heightPoints ((hMM : ℚ) * mmToPtLit),
   .orientFlag landscape,
   .flagArg "-c",
   .pageSizePolicy,
   .offsetScale panelOffX panelOffY gsScale,
   .flagArg "-f",
   .inputFile file]

/-! ## SKU resolution and PDF geometry (local_printer_interface.get_sku_info,
printer_panel._analyze_and_update_size, printer_panel._set_file) -/

/-- The dictionary returned by get_sku_info. -/
structure SkuInfo where
  full_path : String
  filename : String
  width_cm : ℚ
  height_cm : ℚ
  is_landscape : Bool
  deriving DecidableEq, Repr

/-- Environment of get_sku_info: the configured folder, and oracles for
os.path.isdir, os.path.exists and the fitz first-page rectangle (width and
height in points; none when the document cannot be opened or has no page). -/
structure SkuEnv where
  temuskupdf_folder : Option String
  isDir : String → Bool
  pathExists : String → Bool
  openPdf : String → Option (ℚ × ℚ)

/-- file_name = sku if sku.lower().endswith(".pdf") else sku + ".pdf"
(local_printer_interface.get_sku_info, line 41). -/
def normalizeSkuName (sku : String) : String :=
  if hasPdfSfx sku then sku else sku ++ ".pdf"

/-- Body of get_sku_info from the joined path on (lines 42-79): existence
check, fitz analysis, centimeter conversion with 2.54/72, rounding to two
decimals, and the landscape flag compared on the converted pair. -/
def resolveFile (env : SkuEnv) (folder file_name : String) : Option SkuInfo :=
  let full_path := pathJoin folder file_name
  if env.pathExists full_path = false then none
  else
    match env.openPdf full_path with
    | none => none
    | some (w, h) =>
      let width_cm := w * cmPerPoint
      let height_cm := h * cmPerPoint
      let l : Bool := decide (width_cm > height_cm)
      some ⟨full_path, file_name, round2 width_cm, round2 height_cm, l⟩

/-- local_printer_interface.get_sku_info (lines 28-83): configuration and
directory checks, filename normalization, then resolveFile. -/
def get_sku_info (env : SkuEnv) (sku : String) : Option SkuInfo :=
  match env.temuskupdf_folder with
  | none => none
  | some folder =>
    if folder = "" then none
    else if env.isDir folder = false then none
    else resolveFile env folder (normalizeSkuName sku)

/-- printer_panel._set_file (lines 101-112): append ".pdf" when the text does
not already end in it (case sensitively), join against the configured folder,
and return the joined path when it exists. -/
def set_file (root : String) (pathExists : String → Bool) (text : String) :
    Option String :=
  let file_name := if hasPdfSfxExact text then text else text ++ ".pdf"
  let full_path := pathJoin root file_name
  if pathExists full_path then some full_path else none

/-- printer_panel._analyze_and_update_size (lines 265-284): multiply the
first-page point dimensions by the literal 0.352778, compare for landscape,
swap the pair when landscape, and round each component to one decimal.
Returns the (size, is_landscape) pair the panel stores. -/
def analyze_and_update_size (pdf : Option (ℚ × ℚ)) :
    Option ((ℚ × ℚ) × Bool) :=
  match pdf with
  | none => none
  | some (wPts, hPts) =>
    let width := wPts * panelFactor
    let height := hPts * panelFactor
    let l : Bool := decide (width > height)
    let wh := if l then (height, width) else (width, height)
    some ((round1 wh.1, round1 wh.2), l)

/-! ## Print log store (print_logger.py)

The store is modelled at the row level: none stands for a missing
print_log.csv, some rows for an existing file whose CSV rows are rows (the
csv module maps a blank physical line to the empty row []).  The csv
writer/reader pair is modelled as the identity codec on rows, which is its
documented contract. -/

/-- The header row written by print_logger.LOG_HEADER. -/
def LOG_HEADER : List String :=
  ["Timestamp", "SKU/Filename", "Quantity", "Printer", "Status"]

/-- One print-log record as passed to log_print_job. -/
structure LogRecord where
  timestamp : String
  sku_or_filename : String
  quantity : ℤ
  printer_name : String
  status : String
  deriving DecidableEq, Repr

/-- The CSV row written for a record: quantity is stringified like Python
str(int). -/
def recordRow (r : LogRecord) : List String :=
  [r.timestamp, r.sku_or_filename, toString r.quantity, r.printer_name, r.status]

/-- print_logger.log_print_job (lines 14-34): open in append mode, write the
header first when the file is missing or empty, then append the record row. -/
def log_print_job (store : Option (List (List String))) (r : LogRecord) :
    Option (List (List String)) :=
  match store with
  | none => some [LOG_HEADER, recordRow r]
  | some rows =>
    if rows = [] then some [LOG_HEADER, recordRow r]
    else some (rows ++ [recordRow r])

/-- print_logger.read_print_log (lines 36-61): missing file gives []; the
first row is consumed as the header and, when it is falsy (a blank line),
nothing is read; otherwise every nonempty remaining row is returned. -/
def read_print_log (store : Option (List (List String))) : List (List String) :=
  match store with
  | none => []
  | some [] => []
  | some (h :: rest) =>
    if h = [] then []
    else rest.filter (fun row => row ≠ [])

/-- Keep predicate of the delete loop (lines 92-97): a data row survives when
it is nonempty and its first field differs from the timestamp. -/
def keepRow (t : String) (row : List String) : Bool :=
  row ≠ [] && row.headD "" ≠ t

/-- A data row counted as deleted (lines 94-95): nonempty with first field
equal to the timestamp. -/
def matchRow (t : String) (row : List String) : Bool :=
  row ≠ [] && row.headD "" = t

/-- print_logger.delete_print_log_entry (lines 63-119): returns the reported
Bool and the new store.  Missing file or missing/blank header row return
false and leave the store as is; zero matches return false before any
rewrite; otherwise the file is rewritten with the header and the kept rows. -/
def delete_print_log_entry (store : Option (List (List String)))
    (t : String) : Bool × Option (List (List String)) :=
  match store with
  | none => (false, none)
  | some [] => (false, some [])
  | some (h :: rest) =>
    if h = [] then (false, some (h :: rest))
    else
      let deletedCount := (rest.filter (matchRow t)).length
      if deletedCount = 0 then (false, some (h :: rest))
      else (true, some (h :: rest.filter (keepRow t)))

/-! ## Print flows

subprocess.run with check=True is modelled as an oracle from the argument
list to a result: ok for exit code 0, err stderr for a CalledProcessError
(non-zero exit), spawnFail for a spawn failure (FileNotFoundError or other
exception).  A flow returns the outcome: whether the main job succeeded, the
commands handed to the oracle in order, the log records appended in order,
and the diagnostic messages surfaced. -/

/-- Result of one external-tool invocation. -/
inductive RunResult
  | ok
  | err (stderr : String)
  | spawnFail
  deriving DecidableEq, Repr

/-- Observable outcome of one print request. -/
structure PrintOutcome where
  success : Bool
  commandsRun : List (List GsArg)
  logAppends : List LogRecord
  messages : List String
  deriving DecidableEq, Repr

/-- Environment of print_sku_locally: the get_sku_info environment, the
configured other_folder, the _find_ghostscript result, the subprocess oracle
and the current timestamp string. -/
structure LocalEnv where
  sku : SkuEnv
  other_folder_config : Option String
  find_gs : Option String
  run : List GsArg → RunResult
  now : String

/-- Arguments of print_sku_locally.  temuskupdf_folder is accepted by the
Python signature but never used by the flow (get_sku_info reads the
configuration instead, lines 240-247). -/
structure LocalArgs where
  sku : String
  quantity : ℤ
  printer_name : String
  gs_path : Option String
  temuskupdf_folder : Option String
  other_folder : Option String
  print_separator : Bool
  separator_pdf_name : String

/-- Line 237-238: other_folder falls back to the configured value only when
the argument is None. -/
def resolveOtherFolder (env : LocalEnv) (a : LocalArgs) : Option String :=
  match a.other_folder with
  | none => env.other_folder_config
  | some s => some s

/-- Lines 259-260: gs_path falls back to _find_ghostscript when None. -/
def resolveGsPath (env : LocalEnv) (a : LocalArgs) : Option String :=
  match a.gs_path with
  | none => env.find_gs
  | some s => some s

/-- Python truthiness of an optional string. -/
def optTruthy : Option String → Bool
  | none => false
  | some s => s ≠ ""

/-- local_printer_interface.print_sku_locally (lines 198-409).  The quantity
guard comes first; then SKU resolution, Ghostscript resolution, the main
submission, and on main success the optional separator sub-job whose failure
never changes the returned success. -/
def print_sku_locally (env : LocalEnv) (a : LocalArgs) : PrintOutcome :=
  if a.quantity ≤ 0 then
    ⟨false, [], [], ["Error: Quantity must be greater than 0."]⟩
  else
    let other_folder := resolveOtherFolder env a
    match get_sku_info env.sku a.sku with
    | none => ⟨false, [], [], ["Error: Could not get info for SKU."]⟩
    | some info =>
      match resolveGsPath env a with
      | none =>
        ⟨false, [], [], ["Error: Ghostscript executable not found or path is invalid."]⟩
      | some gs =>
        if gs = "" || env.sku.pathExists gs = false then
          ⟨false, [], [], ["Error: Ghostscript executable not found or path is invalid."]⟩
        else
          let w := info.width_cm * pointsPerCm
          let h := info.height_cm * pointsPerCm
          let cmd := interfaceCommand gs a.printer_name a.quantity w h
            info.is_landscape info.full_path
          match env.run cmd with
          | .ok =>
            let mainRec : LogRecord :=
              ⟨env.now, info.filename, a.quantity, a.printer_name,
               "Printed via Local Interface"⟩
            if a.print_separator && optTruthy other_folder
                && a.separator_pdf_name ≠ "" then
              let sepPath := pathJoin (other_folder.getD "") a.separator_pdf_name
              if env.sku.pathExists sepPath then
                let sepCmd := interfaceCommand gs a.printer_name 1 w h
                  info.is_landscape sepPath
                match env.run sepCmd with
                | .ok =>
                  ⟨true, [cmd, sepCmd],
                   [mainRec, ⟨env.now, a.separator_pdf_name, 1, a.printer_name,
                     "Printed Separator via Local Interface"⟩], []⟩
                | .err s =>
                  ⟨true, [cmd, sepCmd], [mainRec],
                   ["Error printing separator page", s]⟩
                | .spawnFail =>
                  ⟨true, [cmd, sepCmd], [mainRec],
                   ["General error printing separator page"]⟩
              else
                ⟨true, [cmd], [mainRec],
                 ["Warning: Separator PDF not found. Skipping."]⟩
            else if a.print_separator then
              ⟨true, [cmd], [mainRec],
               ["Warning: Separator printing enabled but other_folder or separator_pdf_name is not set. Skipping separator."]⟩
            else ⟨true, [cmd], [mainRec], []⟩
          | .err s => ⟨false, [cmd], [], ["Error executing Ghostscript", s]⟩
          | .spawnFail =>
            ⟨false, [cmd], [],
             ["Error: Ghostscript executable not found at path. Ensure it is correct and accessible."]⟩

/-- Environment of printer_panel._print_file: the text of the file box, the
panel printer, the spinbox value, filesystem and fitz oracles, the manager
Ghostscript path and other_folder, the subprocess oracle and the timestamp. -/
structure PanelEnv where
  filePathText : String
  printer : String
  copies : ℤ
  pathExists : String → Bool
  openPdf : String → Option (ℚ × ℚ)
  gs_path : Option String
  other_folder : Option String
  run : List GsArg → RunResult
  now : String

/-- printer_panel._print_file (lines 120-263).  success records whether the
main job was submitted and logged (the Python method returns nothing).  The
failure dialog shows str(e), which for a CalledProcessError does not include
the captured stderr, so failure messages are modelled as fixed labels. -/
def panel_print_file (env : PanelEnv) : PrintOutcome :=
  let fp := env.filePathText
  if fp = "" || env.pathExists fp = false then
    ⟨false, [], [], ["请先选择有效的PDF文件"]⟩
  else
    match analyze_and_update_size (env.openPdf fp) with
    | none => ⟨false, [], [], ["无法获取 PDF 尺寸"]⟩
    | some (size, l) =>
      let width_mm := ratTrunc (size.1 * 10)
      let height_mm := ratTrunc (size.2 * 10)
      match env.gs_path with
      | none => ⟨false, [], [], ["未找到ghostscript"]⟩
      | some gs =>
        if gs = "" then ⟨false, [], [], ["未找到ghostscript"]⟩
        else
          let cmd := panelCommand gs env.printer env.copies width_mm height_mm l fp
          match env.run cmd with
          | .ok =>
            let mainRec : LogRecord :=
              ⟨env.now, baseName fp, env.copies, env.printer, "Printed"⟩
            match env.other_folder with
            | some ofld =>
              if ofld ≠ "" then
                let sepPath := pathJoin ofld "分割72.pdf"
                if env.pathExists sepPath then
                  let sepCmd := panelCommand gs env.printer 1 width_mm height_mm l sepPath
                  match env.run sepCmd with
                  | .ok =>
                    ⟨true, [cmd, sepCmd],
                     [mainRec, ⟨env.now, "分割72.pdf", 1, env.printer,
                       "Printed Separator"⟩], []⟩
                  | .err _ => ⟨true, [cmd, sepCmd], [mainRec], ["打印分隔页异常"]⟩
                  | .spawnFail => ⟨true, [cmd, sepCmd], [mainRec], ["打印分隔页异常"]⟩
                else ⟨true, [cmd], [mainRec], ["分隔页文件未找到"]⟩
              else ⟨true, [cmd], [mainRec], ["配置错误"]⟩
            | none => ⟨true, [cmd], [mainRec], ["配置错误"]⟩
          | .err _ => ⟨false, [cmd], [], ["打印错误"]⟩
          | .spawnFail => ⟨false, [cmd], [], ["打印错误"]⟩

/-! ## Helper lemmas -/

theorem lowerData_append (s t : String) :
    lowerData (s ++ t) = lowerData s ++ lowerData t := by
  simp [lowerData]

theorem hasPdfSfx_append_pdf (X : String) : hasPdfSfx (X ++ ".pdf") = true := by
  unfold hasPdfSfx
  rw [lowerData_append]
  have h : lowerData ".pdf" = ['.', 'p', 'd', 'f'] := by decide
  rw [h, List.reverse_append]
  rfl

theorem hasPdfSfxExact_append_pdf (X : String) :
    hasPdfSfxExact (X ++ ".pdf") = true := by
  unfold hasPdfSfxExact
  rw [String.data_append, List.reverse_append]
  rfl

theorem hasPdfSfx_of_append (s t : String) (h : hasPdfSfx t = true) :
    hasPdfSfx (s ++ t) = true := by
  unfold hasPdfSfx at h ⊢
  rw [lowerData_append, List.reverse_append]
  split at h
  next heq => rw [heq]; rfl
  next => exact absurd h (by simp)

theorem hasPdfSfxExact_of_append (s t : String) (h : hasPdfSfxExact t = true) :
    hasPdfSfxExact (s ++ t) = true := by
  unfold hasPdfSfxExact at h ⊢
  rw [String.data_append, List.reverse_append]
  split at h
  next heq => rw [heq]; rfl
  next => exact absurd h (by simp)

/-- Evaluation of get_sku_info when the configuration, directory, file and
document all resolve. -/
theorem get_sku_info_eq (env : SkuEnv) (sku folder : String) (w h : ℚ)
    (hf : env.temuskupdf_folder = some folder) (hne : folder ≠ "")
    (hdir : env.isDir folder = true)
    (hex : env.pathExists (pathJoin folder (normalizeSkuName sku)) = true)
    (hpdf : env.openPdf (pathJoin folder (normalizeSkuName sku)) = some (w, h)) :
    get_sku_info env sku =
      some ⟨pathJoin folder (normalizeSkuName sku), normalizeSkuName sku,
        round2 (w * cmPerPoint), round2 (h * cmPerPoint),
        decide (w * cmPerPoint > h * cmPerPoint)⟩ := by
  unfold get_sku_info resolveFile
  rw [hf]
  simp [hne, hdir, hex, hpdf]

/-! ## Sample environments used by witnesses -/

/-- A resolving SKU environment: folder "root", everything exists, every
document is a 720 x 1440 point (25.4cm x 50.8cm, portrait) PDF. -/
def sampleSkuEnv : SkuEnv where
  temuskupdf_folder := some "root"
  isDir := fun _ => true
  pathExists := fun _ => true
  openPdf := fun _ => some (720, 1440)

/-- A subprocess oracle: the submission succeeds exactly when the command asks
for 2 copies; every other submission (in particular the separator sub-job,
which always asks for 1 copy) exits non-zero with stderr "sep failed". -/
def sampleRun : List GsArg → RunResult
  | _ :: _ :: _ :: _ :: _ :: _ :: GsArg.numCopies 2 :: _ => RunResult.ok
  | _ => RunResult.err "sep failed"

def sampleEnv : LocalEnv where
  sku := sampleSkuEnv
  other_folder_config := some "other"
  find_gs := some "gs"
  run := sampleRun
  now := "2026-10-12 00:00:00"

def sampleArgs : LocalArgs where
  sku := "SKU1"
  quantity := 2
  printer_name := "P"
  gs_path := none
  temuskupdf_folder := none
  other_folder := none
  print_separator := true
  separator_pdf_name := "分割72.pdf"

def sampleArgsZero : LocalArgs where
  sku := "SKU1"
  quantity := 0
  printer_name := "P"
  gs_path := none
  temuskupdf_folder := none
  other_folder := none
  print_separator := true
  separator_pdf_name := "分割72.pdf"

/-- An environment whose subprocess oracle always fails with stderr "boom". -/
def sampleEnvFail : LocalEnv where
  sku := sampleSkuEnv
  other_folder_config := some "other"
  find_gs := some "gs"
  run := fun _ => RunResult.err "boom"
  now := "2026-10-12 00:00:00"

/-- A panel environment over the same oracles as sampleEnv. -/
def samplePanelEnv : PanelEnv where
  filePathText := "root/SKU1.pdf"
  printer := "P"
  copies := 2
  pathExists := fun _ => true
  openPdf := fun _ => some (720, 1440)
  gs_path := some "gs"
  other_folder := some "other"
  run := sampleRun
  now := "2026-10-12 00:00:00"

/-- A panel environment whose subprocess oracle always exits non-zero with
stderr "boom". -/
def samplePanelEnvFail : PanelEnv where
  filePathText := "root/SKU1.pdf"
  printer := "P"
  copies := 2
  pathExists := fun _ => true
  openPdf := fun _ => some (720, 1440)
  gs_path := some "gs"
  other_folder := some "other"
  run := fun _ => RunResult.err "boom"
  now := "2026-10-12 00:00:00"

/-! ## Claims -/

/-- C1, counterexample: the claim predicts that every submission embeds the
calibration offsets 2.8 x (72/2.54) and -1.0 x (72/2.54) in its PageOffset
fragment, but the command printer_panel._print_file assembles carries
2.8 x 2.834645669291339 and -(1 x 2.834645669291339) instead (about 7.94 and
-2.83 points, not 79.37 and -28.35). -/
theorem c1_counterexample : panelCommand "gs" "P" 3 100 50 false "a.pdf" ≠
    [GsArg.toolPath "gs", .flagArg "-dNOPAUSE", .flagArg "-dBATCH", .flagArg "-dSAFER",
     .flagArg "-sDEVICE=mswinpr2", .outputFile "P", .numCopies 3,
     .widthPoints ((100 : ℚ) * mmToPtLit), .heightPoints ((50 : ℚ) * mmToPtLit),
     .orientFlag false, .flagArg "-c", .pageSizePolicy,
     .offsetScale (2.8 * (72 / 2.54)) (-1.0 * (72 / 2.54)) 0.982,
     .flagArg "-f", .inputFile "a.pdf"] := by
  norm_num [panelCommand, panelOffX, panelOffY, mmToPtLit, gsScale]

/-- C1, amended: both builders assemble the arguments in exactly the claimed
order with scale factor 0.982 applied unconditionally, but the offset pair of
the local-interface commands is 2.8 x (72.0/2.54) and -1.0 x (72.0/2.54),
while the panel commands (main and separator) embed
2.8 x 2.834645669291339 and -(1 x 2.834645669291339). -/
theorem c1_amended_command_assembly (gs printer : String) (copies wMM hMM : ℤ)
    (w h : ℚ) (l : Bool) (f : String) :
    interfaceCommand gs printer copies w h l f =
      [GsArg.toolPath gs, .flagArg "-dNOPAUSE", .flagArg "-dBATCH", .flagArg "-dSAFER",
       .flagArg "-sDEVICE=mswinpr2", .outputFile printer, .numCopies copies,
       .widthPoints w, .heightPoints h, .orientFlag l, .flagArg "-c", .pageSizePolicy,
       .offsetScale (2.8 * (72.0 / 2.54)) (-1.0 * (72.0 / 2.54)) 0.982,
       .flagArg "-f", .inputFile f]
    ∧ panelCommand gs printer copies wMM hMM l f =
      [GsArg.toolPath gs, .flagArg "-dNOPAUSE", .flagArg "-dBATCH", .flagArg "-dSAFER",
       .flagArg "-sDEVICE=mswinpr2", .outputFile printer, .numCopies copies,
       .widthPoints ((wMM : ℚ) * 2.834645669291339),
       .heightPoints ((hMM : ℚ) * 2.834645669291339),
       .orientFlag l, .flagArg "-c", .pageSizePolicy,
       .offsetScale (2.8 * 2.834645669291339) (-(1 * 2.834645669291339)) 0.982,
       .flagArg "-f", .inputFile f] :=
  ⟨rfl, rfl⟩

/-- C2: the base_gs_command list literal of local_printer_interface.py holds
three assignment statements between its elements, so the module never parses
(import raises SyntaxError) and none of its functions is reachable; and
printer_panel.py does not import local_printer_interface, so the GUI pipeline
is unaffected. -/
theorem c2_local_interface_never_loads :
    local_printer_interface_loads = false
    ∧ "local_printer_interface" ∉ printer_panel_imports := by
  exact ⟨by decide, by decide⟩

/-- C5: for every quantity at most zero, print_sku_locally fails immediately:
it spawns no subprocess and appends no log record. -/
theorem c5_nonpositive_quantity_rejected (env : LocalEnv) (a : LocalArgs)
    (h : a.quantity ≤ 0) :
    (print_sku_locally env a).success = false
    ∧ (print_sku_locally env a).commandsRun = []
    ∧ (print_sku_locally env a).logAppends = [] := by
  unfold print_sku_locally
  rw [if_pos h]
  exact ⟨rfl, rfl, rfl⟩

/-- C5 witness at quantity 0. -/
theorem c5_witness :
    sampleArgsZero.quantity ≤ 0
    ∧ ((print_sku_locally sampleEnv sampleArgsZero).success = false
       ∧ (print_sku_locally sampleEnv sampleArgsZero).commandsRun = []
       ∧ (print_sku_locally sampleEnv sampleArgsZero).logAppends = []) :=
  ⟨by decide, c5_nonpositive_quantity_rejected sampleEnv sampleArgsZero (by decide)⟩

/-- C6: at both producers of a (width_cm, height_cm, is_landscape) triple —
get_sku_info and _analyze_and_update_size — the landscape flag equals the
comparison width > height on the as-measured (unrotated, unswapped)
centimeter pair. -/
theorem c6_landscape_flag_invariant (env : SkuEnv) (sku folder : String)
    (w h : ℚ) (info : SkuInfo)
    (hf : env.temuskupdf_folder = some folder) (hne : folder ≠ "")
    (hdir : env.isDir folder = true)
    (hex : env.pathExists (pathJoin folder (normalizeSkuName sku)) = true)
    (hpdf : env.openPdf (pathJoin folder (normalizeSkuName sku)) = some (w, h))
    (hinfo : get_sku_info env sku = some info)
    (w2 h2 : ℚ) (size : ℚ × ℚ) (l : Bool)
    (hpanel : analyze_and_update_size (some (w2, h2)) = some (size, l)) :
    info.is_landscape = decide (w * cmPerPoint > h * cmPerPoint)
    ∧ l = decide (w2 * panelFactor > h2 * panelFactor) := by
  constructor
  · have he := get_sku_info_eq env sku folder w h hf hne hdir hex hpdf
    rw [hinfo] at he
    rw [Option.some.inj he]
  · unfold analyze_and_update_size at hpanel
    have hp := congrArg Prod.snd (Option.some.inj hpanel)
    simpa using hp.symm

/-- C6 witness: a 720 x 1440 point document resolved through get_sku_info and
a 100 x 200 point document analyzed by the panel both carry a landscape flag
equal to the as-measured comparison. -/
theorem c6_witness :
    (SkuInfo.mk (pathJoin "root" (normalizeSkuName "SKU1"))
        (normalizeSkuName "SKU1") (round2 ((720 : ℚ) * cmPerPoint))
        (round2 ((1440 : ℚ) * cmPerPoint))
        (decide ((720 : ℚ) * cmPerPoint > (1440 : ℚ) * cmPerPoint))).is_landscape
      = decide ((720 : ℚ) * cmPerPoint > (1440 : ℚ) * cmPerPoint)
    ∧ false = decide ((100 : ℚ) * panelFactor > (200 : ℚ) * panelFactor) :=
  c6_landscape_flag_invariant sampleSkuEnv "SKU1" "root" 720 1440 _
    rfl (by decide) rfl rfl rfl
    (get_sku_info_eq sampleSkuEnv "SKU1" "root" 720 1440 rfl (by decide) rfl rfl rfl)
    100 200 (35.3, 70.6) false
    (by norm_num [analyze_and_update_size, panelFactor, round1, roundHalfEven, ratFloor])

/-- C7, counterexample: the claim predicts that the panel call site converts
points to centimeters with the exact ratio 2.54/72; on a 100 x 200 point page
that would give the pair (3.5, 7.1), but _analyze_and_update_size multiplies
by the literal 0.352778 and returns (35.3, 70.6). -/
theorem c7_counterexample : analyze_and_update_size (some (100, 200)) ≠
    some ((round1 ((100 : ℚ) * cmPerPoint), round1 ((200 : ℚ) * cmPerPoint)), false) := by
  norm_num [analyze_and_update_size, panelFactor, cmPerPoint, round1,
    roundHalfEven, ratFloor]

/-- C7, amended: get_sku_info converts with exactly 2.54/72 cm per point,
while _analyze_and_update_size multiplies the point dimensions by the literal
0.352778, which is neither 2.54/72 nor exactly 10 x (2.54/72). -/
theorem c7_amended_conversion_factors (env : SkuEnv) (sku folder : String)
    (w h : ℚ)
    (hf : env.temuskupdf_folder = some folder) (hne : folder ≠ "")
    (hdir : env.isDir folder = true)
    (hex : env.pathExists (pathJoin folder (normalizeSkuName sku)) = true)
    (hpdf : env.openPdf (pathJoin folder (normalizeSkuName sku)) = some (w, h))
    (w2 h2 : ℚ) :
    get_sku_info env sku =
      some ⟨pathJoin folder (normalizeSkuName sku), normalizeSkuName sku,
        round2 (w * cmPerPoint), round2 (h * cmPerPoint),
        decide (w * cmPerPoint > h * cmPerPoint)⟩
    ∧ cmPerPoint = 2.54 / 72
    ∧ analyze_and_update_size (some (w2, h2)) =
        some ((if w2 * panelFactor > h2 * panelFactor
               then (round1 (h2 * panelFactor), round1 (w2 * panelFactor))
               else (round1 (w2 * panelFactor), round1 (h2 * panelFactor))),
              decide (w2 * panelFactor > h2 * panelFactor))
    ∧ panelFactor ≠ 2.54 / 72
    ∧ panelFactor ≠ 10 * (2.54 / 72) := by
  refine ⟨get_sku_info_eq env sku folder w h hf hne hdir hex hpdf,
    by norm_num [cmPerPoint], ?_, by norm_num [panelFactor],
    by norm_num [panelFactor]⟩
  unfold analyze_and_update_size
  by_cases hcmp : w2 * panelFactor > h2 * panelFactor
  · simp [hcmp]
  · simp [hcmp]

/-- C7 witness at the 720 x 1440 point document and a 100 x 200 point page. -/
theorem c7_witness :
    (get_sku_info sampleSkuEnv "SKU1" =
      some ⟨pathJoin "root" (normalizeSkuName "SKU1"), normalizeSkuName "SKU1",
        round2 ((720 : ℚ) * cmPerPoint), round2 ((1440 : ℚ) * cmPerPoint),
        decide ((720 : ℚ) * cmPerPoint > (1440 : ℚ) * cmPerPoint)⟩)
    ∧ cmPerPoint = 2.54 / 72
    ∧ analyze_and_update_size (some (100, 200)) =
        some ((if (100 : ℚ) * panelFactor > (200 : ℚ) * panelFactor
               then (round1 ((200 : ℚ) * panelFactor), round1 ((100 : ℚ) * panelFactor))
               else (round1 ((100 : ℚ) * panelFactor), round1 ((200 : ℚ) * panelFactor))),
              decide ((100 : ℚ) * panelFactor > (200 : ℚ) * panelFactor))
    ∧ panelFactor ≠ 2.54 / 72
    ∧ panelFactor ≠ 10 * (2.54 / 72) :=
  c7_amended_conversion_factors sampleSkuEnv "SKU1" "root" 720 1440
    rfl (by decide) rfl rfl rfl 100 200

/-- C8: SKU resolution appends the document extension only when absent (in
get_sku_info the check is case-insensitive, in _set_file exact), resolving X
and X.pdf gives the same joined path and result at both call sites, and for a
SKU present under the document root the returned path exists and ends with
the extension. -/
theorem c8_resolution_idempotent (env : SkuEnv) (X : String)
    (hX : hasPdfSfx X = false)
    (folder : String) (w h : ℚ)
    (hf : env.temuskupdf_folder = some folder) (hne : folder ≠ "")
    (hdir : env.isDir folder = true)
    (hex : env.pathExists (pathJoin folder (X ++ ".pdf")) = true)
    (hpdf : env.openPdf (pathJoin folder (X ++ ".pdf")) = some (w, h))
    (Z : String) (hZ : hasPdfSfx Z = true)
    (root Y p : String) (pe : String → Bool)
    (hY : hasPdfSfxExact Y = false) (hsf : set_file root pe Y = some p) :
    get_sku_info env X = get_sku_info env (X ++ ".pdf")
    ∧ get_sku_info env X = some ⟨pathJoin folder (X ++ ".pdf"), X ++ ".pdf",
        round2 (w * cmPerPoint), round2 (h * cmPerPoint),
        decide (w * cmPerPoint > h * cmPerPoint)⟩
    ∧ env.pathExists (pathJoin folder (X ++ ".pdf")) = true
    ∧ hasPdfSfx (pathJoin folder (X ++ ".pdf")) = true
    ∧ normalizeSkuName X = X ++ ".pdf"
    ∧ normalizeSkuName Z = Z
    ∧ set_file root pe Y = set_file root pe (Y ++ ".pdf")
    ∧ pe p = true
    ∧ hasPdfSfxExact p = true := by
  have hnorm : normalizeSkuName X = X ++ ".pdf" := by
    unfold normalizeSkuName; rw [hX]; rfl
  have hnorm2 : normalizeSkuName (X ++ ".pdf") = X ++ ".pdf" := by
    unfold normalizeSkuName; rw [hasPdfSfx_append_pdf]; rfl
  have hex' : env.pathExists (pathJoin folder (normalizeSkuName X)) = true := by
    rw [hnorm]; exact hex
  have hpdf' : env.openPdf (pathJoin folder (normalizeSkuName X)) = some (w, h) := by
    rw [hnorm]; exact hpdf
  have heval := get_sku_info_eq env X folder w h hf hne hdir hex' hpdf'
  rw [hnorm] at heval
  refine ⟨?_, heval, hex, ?_, hnorm, ?_, ?_, ?_, ?_⟩
  · unfold get_sku_info
    rw [hnorm, hnorm2]
  · exact hasPdfSfx_of_append (folder ++ "/") (X ++ ".pdf") (hasPdfSfx_append_pdf X)
  · unfold normalizeSkuName; rw [hZ]; simp
  · unfold set_file
    rw [hY, hasPdfSfxExact_append_pdf]
    simp
  · unfold set_file at hsf
    rw [hY] at hsf
    simp only [Bool.false_eq_true, if_false] at hsf
    split at hsf
    next hpe =>
      rw [← Option.some.inj hsf]
      exact hpe
    next => exact absurd hsf (by simp)
  · unfold set_file at hsf
    rw [hY] at hsf
    simp only [Bool.false_eq_true, if_false] at hsf
    split at hsf
    next hpe =>
      rw [← Option.some.inj hsf]
      exact hasPdfSfxExact_of_append (root ++ "/") (Y ++ ".pdf")
        (hasPdfSfxExact_append_pdf Y)
    next => exact absurd hsf (by simp)

/-- C8 witness at SKU "SKU1" under folder "root" and panel text "ABC". -/
theorem c8_witness :
    get_sku_info sampleSkuEnv "SKU1" = get_sku_info sampleSkuEnv ("SKU1" ++ ".pdf")
    ∧ get_sku_info sampleSkuEnv "SKU1" =
        some ⟨pathJoin "root" ("SKU1" ++ ".pdf"), "SKU1" ++ ".pdf",
          round2 ((720 : ℚ) * cmPerPoint), round2 ((1440 : ℚ) * cmPerPoint),
          decide ((720 : ℚ) * cmPerPoint > (1440 : ℚ) * cmPerPoint)⟩
    ∧ sampleSkuEnv.pathExists (pathJoin "root" ("SKU1" ++ ".pdf")) = true
    ∧ hasPdfSfx (pathJoin "root" ("SKU1" ++ ".pdf")) = true
    ∧ normalizeSkuName "SKU1" = "SKU1" ++ ".pdf"
    ∧ normalizeSkuName "a.pdf" = "a.pdf"
    ∧ set_file "root" (fun _ => true) "ABC" =
        set_file "root" (fun _ => true) ("ABC" ++ ".pdf")
    ∧ (fun _ : String => true) "root/ABC.pdf" = true
    ∧ hasPdfSfxExact "root/ABC.pdf" = true :=
  c8_resolution_idempotent sampleSkuEnv "SKU1" (by decide) "root" 720 1440
    rfl (by decide) rfl rfl rfl
    "a.pdf" (by decide) "root" "ABC" "root/ABC.pdf" (fun _ => true)
    (by decide) (by decide)

/-- A store whose existing first physical row is not a blank line (the header
read by read_print_log is truthy). -/
def storeReadable : Option (List (List String)) → Prop
  | none => True
  | some [] => True
  | some (h :: _) => h ≠ []

/-- C9, counterexample: on a prior store whose only physical line is blank,
appending a record and reading the store back returns nothing at all —
read_print_log consumes the blank first row as a falsy header — so the
appended record (quantity 12, printer name with a space) is not the last
returned entry. -/
theorem c9_counterexample :
    (read_print_log (log_print_job (some [[]])
      ⟨"2026-10-12 00:00:01", "A.pdf", 12, "My Printer", "Printed"⟩)).getLast? ≠
    some ["2026-10-12 00:00:01", "A.pdf", "12", "My Printer", "Printed"] := by
  decide

/-- C9, amended: for every prior store that is missing, empty, or whose first
row is nonempty, appending a record with log_print_job and reading with
read_print_log returns that record as the last entry with all five fields
preserved exactly (quantity as its decimal string). -/
theorem c9_amended_roundtrip (store : Option (List (List String)))
    (r : LogRecord) (hs : storeReadable store) :
    (read_print_log (log_print_job store r)).getLast? = some (recordRow r) := by
  have hrow : recordRow r ≠ [] := by simp [recordRow]
  match store with
  | none =>
    simp [log_print_job, read_print_log, LOG_HEADER, hrow]
  | some [] =>
    simp [log_print_job, read_print_log, LOG_HEADER, hrow]
  | some (h :: rest) =>
    have hne : h ≠ [] := hs
    simp [log_print_job, read_print_log, hne, hrow, List.filter_append,
      List.getLast?_concat]

/-- C9 witness: round trip on a store holding only the header, with a
multi-digit quantity and a printer name containing a space. -/
theorem c9_witness :
    (read_print_log (log_print_job (some [LOG_HEADER])
      ⟨"2026-10-12 00:00:02", "B.pdf", 37, "Printer 2", "Printed"⟩)).getLast? =
    some (recordRow ⟨"2026-10-12 00:00:02", "B.pdf", 37, "Printer 2", "Printed"⟩) :=
  c9_amended_roundtrip (some [LOG_HEADER])
    ⟨"2026-10-12 00:00:02", "B.pdf", 37, "Printer 2", "Printed"⟩
    (show LOG_HEADER ≠ [] by decide)

/-- C10, counterexample: deleting a matching timestamp from a store that also
holds a blank row drops the blank row as well, so the rewrite does not leave
every non-matching row in place as the claim states. -/
theorem c10_counterexample :
    delete_print_log_entry
        (some [LOG_HEADER, [], ["2024-01-01 00:00:00", "A.pdf", "1", "P1", "Printed"]])
        "2024-01-01 00:00:00" = (true, some [LOG_HEADER])
    ∧ delete_print_log_entry
        (some [LOG_HEADER, [], ["2024-01-01 00:00:00", "A.pdf", "1", "P1", "Printed"]])
        "2024-01-01 00:00:00" ≠ (true, some [LOG_HEADER, []]) := by
  decide

/-- C10, amended: delete_print_log_entry removes exactly the nonempty data
rows whose first field equals the timestamp, additionally drops blank rows in
the same rewrite, keeps the header and every other nonempty row identical and
in order, and when no data row matches (or the file is missing, empty, or
headerless) it returns false and leaves the store unchanged. -/
theorem c10_amended_delete (h : List String) (rest : List (List String))
    (t : String) (hh : h ≠ []) (row : List String) (hrow : row ∈ rest) :
    delete_print_log_entry none t = (false, none)
    ∧ delete_print_log_entry (some []) t = (false, some [])
    ∧ ((rest.filter (matchRow t)).length = 0 →
        delete_print_log_entry (some (h :: rest)) t = (false, some (h :: rest)))
    ∧ (0 < (rest.filter (matchRow t)).length →
        delete_print_log_entry (some (h :: rest)) t =
          (true, some (h :: rest.filter (keepRow t))))
    ∧ (matchRow t row = false → row ≠ [] → row ∈ rest.filter (keepRow t))
    ∧ (matchRow t row = true → row ∉ rest.filter (keepRow t)) := by
  refine ⟨rfl, rfl, ?_, ?_, ?_, ?_⟩
  · intro hz
    unfold delete_print_log_entry
    simp [hh, hz]
  · intro hp
    unfold delete_print_log_entry
    simp [hh, Nat.pos_iff_ne_zero.mp hp]
  · intro hm hr
    rw [List.mem_filter]
    refine ⟨hrow, ?_⟩
    unfold keepRow
    unfold matchRow at hm
    by_cases ht : row.head?.getD "" = t
    · exfalso
      rw [Bool.and_eq_false_iff] at hm
      rcases hm with hm | hm
      · simp [hr] at hm
      · rw [List.headD_eq_head?_getD] at hm
        simp [ht] at hm
    · simp [hr, ht]
  · intro hm hmem
    rw [List.mem_filter] at hmem
    unfold keepRow at hmem
    unfold matchRow at hm
    simp only [Bool.and_eq_true] at hm hmem
    obtain ⟨-, hm2⟩ := hm
    obtain ⟨-, ⟨-, hk2⟩⟩ := hmem
    simp at hm2 hk2
    exact hk2 hm2

/-- Rows used by the C10 witness: a matching row, a non-matching row and a
blank row. -/
def c10Rows : List (List String) :=
  [["t1", "a", "1", "P", "S"], ["t2", "b", "2", "P", "S"], []]

/-- The non-matching row of the C10 witness. -/
def c10Row2 : List String := ["t2", "b", "2", "P", "S"]

/-- C10 witness: a store with one matching row, one non-matching row and a
blank row; the matching row is removed and the non-matching row kept. -/
theorem c10_witness :
    delete_print_log_entry none "t1" = (false, none)
    ∧ delete_print_log_entry (some []) "t1" = (false, some [])
    ∧ ((c10Rows.filter (matchRow "t1")).length = 0 →
        delete_print_log_entry (some (LOG_HEADER :: c10Rows)) "t1" =
          (false, some (LOG_HEADER :: c10Rows)))
    ∧ (0 < (c10Rows.filter (matchRow "t1")).length →
        delete_print_log_entry (some (LOG_HEADER :: c10Rows)) "t1" =
          (true, some (LOG_HEADER :: c10Rows.filter (keepRow "t1"))))
    ∧ (matchRow "t1" c10Row2 = false → c10Row2 ≠ [] →
        c10Row2 ∈ c10Rows.filter (keepRow "t1"))
    ∧ (matchRow "t1" c10Row2 = true →
        c10Row2 ∉ c10Rows.filter (keepRow "t1")) :=
  c10_amended_delete LOG_HEADER c10Rows "t1" (by decide) c10Row2 (by decide)

/-- Evaluation of panel_print_file after a successful main submission with a
configured other_folder: the outcome is success whatever the separator
sub-job does, and when the separator file exists the separator command is the
main command with quantity 1. -/
theorem panel_print_file_sep_case (penv : PanelEnv) (size : ℚ × ℚ) (l : Bool)
    (pgs ofld : String)
    (hfp : penv.filePathText ≠ "") (hfpe : penv.pathExists penv.filePathText = true)
    (hana : analyze_and_update_size (penv.openPdf penv.filePathText) = some (size, l))
    (hpgs : penv.gs_path = some pgs) (hpgsne : pgs ≠ "")
    (hpmain : penv.run (panelCommand pgs penv.printer penv.copies
        (ratTrunc (size.1 * 10)) (ratTrunc (size.2 * 10)) l penv.filePathText) =
      RunResult.ok)
    (hpof : penv.other_folder = some ofld) (hofne : ofld ≠ "") :
    (panel_print_file penv).success = true
    ∧ (penv.pathExists (pathJoin ofld "分割72.pdf") = true →
        (panel_print_file penv).commandsRun =
          [panelCommand pgs penv.printer penv.copies
            (ratTrunc (size.1 * 10)) (ratTrunc (size.2 * 10)) l penv.filePathText,
           panelCommand pgs penv.printer 1
            (ratTrunc (size.1 * 10)) (ratTrunc (size.2 * 10)) l
            (pathJoin ofld "分割72.pdf")]) := by
  simp only [panel_print_file]
  rw [if_neg (by simp [hfp, hfpe])]
  simp only [hana]
  simp only [hpgs]
  rw [if_neg hpgsne]
  simp only [hpmain]
  simp only [hpof]
  rw [if_pos hofne]
  constructor
  · split
    · cases hrun : penv.run (panelCommand pgs penv.printer 1
          (ratTrunc (size.1 * 10)) (ratTrunc (size.2 * 10)) l
          (pathJoin ofld "分割72.pdf")) <;> rfl
    · rfl
  · intro hsp
    simp only [hsp, if_true]
    cases hrun : penv.run (panelCommand pgs penv.printer 1
        (ratTrunc (size.1 * 10)) (ratTrunc (size.2 * 10)) l
        (pathJoin ofld "分割72.pdf")) <;> rfl

/-- Evaluation of panel_print_file when the main submission exits non-zero:
failure, no log append, and the dialog text is the fixed label (str of the
CalledProcessError, which does not include the captured stderr). -/
theorem panel_print_file_err_case (penv : PanelEnv) (size : ℚ × ℚ) (l : Bool)
    (pgs : String) (s3 : String)
    (hfp : penv.filePathText ≠ "") (hfpe : penv.pathExists penv.filePathText = true)
    (hana : analyze_and_update_size (penv.openPdf penv.filePathText) = some (size, l))
    (hpgs : penv.gs_path = some pgs) (hpgsne : pgs ≠ "")
    (herr : penv.run (panelCommand pgs penv.printer penv.copies
        (ratTrunc (size.1 * 10)) (ratTrunc (size.2 * 10)) l penv.filePathText) =
      RunResult.err s3) :
    (panel_print_file penv).success = false
    ∧ (panel_print_file penv).logAppends = []
    ∧ (panel_print_file penv).messages = ["打印错误"] := by
  simp only [panel_print_file]
  rw [if_neg (by simp [hfp, hfpe])]
  simp only [hana]
  simp only [hpgs]
  rw [if_neg hpgsne]
  simp only [herr]
  simp

/-- C3: in both pipelines, when the main job has succeeded and a separator is
requested (folder configured, and for print_sku_locally a separator name
set), the request outcome stays success whatever the separator sub-job does,
and when the separator file exists the separator command is submitted with
quantity exactly 1 — regardless of the caller-supplied quantity — reusing the
main job's device width, height and orientation flag. -/
theorem c3_separator_forced_one (env : LocalEnv) (a : LocalArgs)
    (folder : String) (w h : ℚ) (gs : String)
    (hq : ¬ a.quantity ≤ 0)
    (hf : env.sku.temuskupdf_folder = some folder) (hne : folder ≠ "")
    (hdir : env.sku.isDir folder = true)
    (hex : env.sku.pathExists (pathJoin folder (normalizeSkuName a.sku)) = true)
    (hpdf : env.sku.openPdf (pathJoin folder (normalizeSkuName a.sku)) = some (w, h))
    (hgs : resolveGsPath env a = some gs) (hgsne : gs ≠ "")
    (hgse : env.sku.pathExists gs = true)
    (hmain : env.run (interfaceCommand gs a.printer_name a.quantity
        (round2 (w * cmPerPoint) * pointsPerCm) (round2 (h * cmPerPoint) * pointsPerCm)
        (decide (w * cmPerPoint > h * cmPerPoint))
        (pathJoin folder (normalizeSkuName a.sku))) = RunResult.ok)
    (hsep : a.print_separator = true)
    (hof : optTruthy (resolveOtherFolder env a) = true)
    (hsn : a.separator_pdf_name ≠ "")
    (penv : PanelEnv) (size : ℚ × ℚ) (l : Bool) (pgs ofld : String)
    (hfp : penv.filePathText ≠ "") (hfpe : penv.pathExists penv.filePathText = true)
    (hana : analyze_and_update_size (penv.openPdf penv.filePathText) = some (size, l))
    (hpgs : penv.gs_path = some pgs) (hpgsne : pgs ≠ "")
    (hpmain : penv.run (panelCommand pgs penv.printer penv.copies
        (ratTrunc (size.1 * 10)) (ratTrunc (size.2 * 10)) l penv.filePathText) =
      RunResult.ok)
    (hpof : penv.other_folder = some ofld) (hofne : ofld ≠ "") :
    (print_sku_locally env a).success = true
    ∧ (env.sku.pathExists
          (pathJoin ((resolveOtherFolder env a).getD "") a.separator_pdf_name) = true →
        (print_sku_locally env a).commandsRun =
          [interfaceCommand gs a.printer_name a.quantity
            (round2 (w * cmPerPoint) * pointsPerCm) (round2 (h * cmPerPoint) * pointsPerCm)
            (decide (w * cmPerPoint > h * cmPerPoint))
            (pathJoin folder (normalizeSkuName a.sku)),
           interfaceCommand gs a.printer_name 1
            (round2 (w * cmPerPoint) * pointsPerCm) (round2 (h * cmPerPoint) * pointsPerCm)
            (decide (w * cmPerPoint > h * cmPerPoint))
            (pathJoin ((resolveOtherFolder env a).getD "") a.separator_pdf_name)])
    ∧ (panel_print_file penv).success = true
    ∧ (penv.pathExists (pathJoin ofld "分割72.pdf") = true →
        (panel_print_file penv).commandsRun =
          [panelCommand pgs penv.printer penv.copies
            (ratTrunc (size.1 * 10)) (ratTrunc (size.2 * 10)) l penv.filePathText,
           panelCommand pgs penv.printer 1
            (ratTrunc (size.1 * 10)) (ratTrunc (size.2 * 10)) l
            (pathJoin ofld "分割72.pdf")]) := by
  have hp := panel_print_file_sep_case penv size l pgs ofld
    hfp hfpe hana hpgs hpgsne hpmain hpof hofne
  have hi : (print_sku_locally env a).success = true
      ∧ (env.sku.pathExists
            (pathJoin ((resolveOtherFolder env a).getD "") a.separator_pdf_name) = true →
          (print_sku_locally env a).commandsRun =
            [interfaceCommand gs a.printer_name a.quantity
              (round2 (w * cmPerPoint) * pointsPerCm) (round2 (h * cmPerPoint) * pointsPerCm)
              (decide (w * cmPerPoint > h * cmPerPoint))
              (pathJoin folder (normalizeSkuName a.sku)),
             interfaceCommand gs a.printer_name 1
              (round2 (w * cmPerPoint) * pointsPerCm) (round2 (h * cmPerPoint) * pointsPerCm)
              (decide (w * cmPerPoint > h * cmPerPoint))
              (pathJoin ((resolveOtherFolder env a).getD "") a.separator_pdf_name)]) := by
    have hinfo := get_sku_info_eq env.sku a.sku folder w h hf hne hdir hex hpdf
    simp only [print_sku_locally, if_neg hq, hinfo, hgs, hgsne, hgse]
    rw [if_neg (by simp)]
    simp only [hmain]
    simp only [hsep, hof, hsn, ne_eq, not_false_eq_true, decide_True, Bool.and_self,
      Bool.true_and, if_true, decide_not, Bool.not_false]
    constructor
    · split
      · cases hrun : env.run (interfaceCommand gs a.printer_name 1
            (round2 (w * cmPerPoint) * pointsPerCm) (round2 (h * cmPerPoint) * pointsPerCm)
            (decide (w * cmPerPoint > h * cmPerPoint))
            (pathJoin ((resolveOtherFolder env a).getD "") a.separator_pdf_name)) <;> rfl
      · rfl
    · intro hsp
      simp only [hsp, if_true]
      cases hrun : env.run (interfaceCommand gs a.printer_name 1
          (round2 (w * cmPerPoint) * pointsPerCm) (round2 (h * cmPerPoint) * pointsPerCm)
          (decide (w * cmPerPoint > h * cmPerPoint))
          (pathJoin ((resolveOtherFolder env a).getD "") a.separator_pdf_name)) <;> rfl
  exact ⟨hi.1, hi.2, hp.1, hp.2⟩

/-- C3 witness: in both pipelines the caller asks for 2 copies with a
separator; the main submission succeeds, the separator submission fails
(sampleRun errs on every 1-copy command), yet the request succeeds and the
separator command reuses the main geometry with quantity 1. -/
theorem c3_witness :
    (print_sku_locally sampleEnv sampleArgs).success = true
    ∧ (print_sku_locally sampleEnv sampleArgs).commandsRun =
        [interfaceCommand "gs" "P" sampleArgs.quantity
          (round2 ((720 : ℚ) * cmPerPoint) * pointsPerCm)
          (round2 ((1440 : ℚ) * cmPerPoint) * pointsPerCm)
          (decide ((720 : ℚ) * cmPerPoint > (1440 : ℚ) * cmPerPoint))
          (pathJoin "root" (normalizeSkuName sampleArgs.sku)),
         interfaceCommand "gs" "P" 1
          (round2 ((720 : ℚ) * cmPerPoint) * pointsPerCm)
          (round2 ((1440 : ℚ) * cmPerPoint) * pointsPerCm)
          (decide ((720 : ℚ) * cmPerPoint > (1440 : ℚ) * cmPerPoint))
          (pathJoin ((resolveOtherFolder sampleEnv sampleArgs).getD "")
            sampleArgs.separator_pdf_name)]
    ∧ (panel_print_file samplePanelEnv).success = true
    ∧ (panel_print_file samplePanelEnv).commandsRun =
        [panelCommand "gs" "P" 2
          (ratTrunc ((254 : ℚ) * 10)) (ratTrunc ((508 : ℚ) * 10)) false
          "root/SKU1.pdf",
         panelCommand "gs" "P" 1
          (ratTrunc ((254 : ℚ) * 10)) (ratTrunc ((508 : ℚ) * 10)) false
          (pathJoin "other" "分割72.pdf")] := by
  have hc := c3_separator_forced_one sampleEnv sampleArgs "root" 720 1440 "gs"
    (by decide) rfl (by decide) rfl rfl rfl rfl (by decide) rfl (by decide)
    rfl (by decide) (by decide)
    samplePanelEnv (254, 508) false "gs" "other"
    (by decide) rfl
    (by norm_num [samplePanelEnv, analyze_and_update_size, panelFactor, round1,
      roundHalfEven, ratFloor])
    rfl (by decide) rfl rfl (by decide)
  exact ⟨hc.1, hc.2.1 rfl, hc.2.2.1, hc.2.2.2 rfl⟩

/-- In print_sku_locally, exactly the sub-jobs whose invocation returned ok
contribute a log record. -/
theorem print_sku_locally_log_count (env : LocalEnv) (a : LocalArgs) :
    (print_sku_locally env a).logAppends.length =
      ((print_sku_locally env a).commandsRun.filter
        (fun c => decide (env.run c = RunResult.ok))).length := by
  unfold print_sku_locally
  split
  · rfl
  · try dsimp only
    split
    · rfl
    · try dsimp only
      split
      · rfl
      · try dsimp only
        split
        · rfl
        · try dsimp only
          split
          next heq =>
            try dsimp only
            split
            · try dsimp only
              split
              · try dsimp only
                split
                next heq2 => simp [List.filter, heq, heq2]
                next s heq2 => simp [List.filter, heq, heq2]
                next heq2 => simp [List.filter, heq, heq2]
              · simp [List.filter, heq]
            · split
              · simp [List.filter, heq]
              · simp [List.filter, heq]
          next s heq => simp [List.filter, heq]
          next heq => simp [List.filter, heq]

/-- In _print_file, exactly the sub-jobs whose invocation returned ok
contribute a log record. -/
theorem panel_print_file_log_count (env : PanelEnv) :
    (panel_print_file env).logAppends.length =
      ((panel_print_file env).commandsRun.filter
        (fun c => decide (env.run c = RunResult.ok))).length := by
  unfold panel_print_file
  repeat' split
  all_goals simp_all [List.filter]
  all_goals repeat' split
  all_goals simp_all [List.filter]

/-- C4, counterexample: at the panel call site the claim's "failure carrying
the captured error text is reported" is false.  With an oracle whose main
invocation exits non-zero with stderr "boom", _print_file appends no log
record and reports failure, but the dialog text — str(e) of the
CalledProcessError — does not contain "boom" (line 260, the only path that
would surface result.stderr, is unreachable under check=True). -/
theorem c4_counterexample :
    (panel_print_file samplePanelEnvFail).success = false
    ∧ (panel_print_file samplePanelEnvFail).logAppends = []
    ∧ "boom" ∉ (panel_print_file samplePanelEnvFail).messages := by
  have h := panel_print_file_err_case samplePanelEnvFail (254, 508) false "gs" "boom"
    (by decide) rfl
    (by norm_num [samplePanelEnvFail, analyze_and_update_size, panelFactor, round1,
      roundHalfEven, ratFloor])
    rfl (by decide) rfl
  refine ⟨h.1, h.2.1, ?_⟩
  rw [h.2.2]
  decide

/-- C4, amended: a main or separator sub-job whose invocation exits non-zero
or fails to spawn appends no log record for that sub-job and failure is
reported — in print_sku_locally with the captured stderr, in printer_panel
with only the fixed exception dialog, which omits the stderr; a failed
separator leaves the main record as the only append; and in both flows, on
every environment, the number of appended log records equals the number of
submitted commands whose invocation returned exit code 0, so the log store is
unchanged by a failed submission. -/
theorem c4_failed_submission_no_log (env : LocalEnv) (a : LocalArgs)
    (folder : String) (w h : ℚ) (gs : String) (s s2 : String)
    (hq : ¬ a.quantity ≤ 0)
    (hf : env.sku.temuskupdf_folder = some folder) (hne : folder ≠ "")
    (hdir : env.sku.isDir folder = true)
    (hex : env.sku.pathExists (pathJoin folder (normalizeSkuName a.sku)) = true)
    (hpdf : env.sku.openPdf (pathJoin folder (normalizeSkuName a.sku)) = some (w, h))
    (hgs : resolveGsPath env a = some gs) (hgsne : gs ≠ "")
    (hgse : env.sku.pathExists gs = true)
    (env3 : LocalEnv) (a3 : LocalArgs) (penv : PanelEnv)
    (size : ℚ × ℚ) (l : Bool) (pgs s3 : String)
    (hfp : penv.filePathText ≠ "") (hfpe : penv.pathExists penv.filePathText = true)
    (hana : analyze_and_update_size (penv.openPdf penv.filePathText) = some (size, l))
    (hpgs : penv.gs_path = some pgs) (hpgsne : pgs ≠ "") :
    (env.run (interfaceCommand gs a.printer_name a.quantity
        (round2 (w * cmPerPoint) * pointsPerCm) (round2 (h * cmPerPoint) * pointsPerCm)
        (decide (w * cmPerPoint > h * cmPerPoint))
        (pathJoin folder (normalizeSkuName a.sku))) = RunResult.err s →
      (print_sku_locally env a).success = false
      ∧ (print_sku_locally env a).logAppends = []
      ∧ s ∈ (print_sku_locally env a).messages)
    ∧ (env.run (interfaceCommand gs a.printer_name a.quantity
        (round2 (w * cmPerPoint) * pointsPerCm) (round2 (h * cmPerPoint) * pointsPerCm)
        (decide (w * cmPerPoint > h * cmPerPoint))
        (pathJoin folder (normalizeSkuName a.sku))) = RunResult.spawnFail →
      (print_sku_locally env a).success = false
      ∧ (print_sku_locally env a).logAppends = [])
    ∧ (env.run (interfaceCommand gs a.printer_name a.quantity
        (round2 (w * cmPerPoint) * pointsPerCm) (round2 (h * cmPerPoint) * pointsPerCm)
        (decide (w * cmPerPoint > h * cmPerPoint))
        (pathJoin folder (normalizeSkuName a.sku))) = RunResult.ok →
      a.print_separator = true →
      optTruthy (resolveOtherFolder env a) = true →
      a.separator_pdf_name ≠ "" →
      env.sku.pathExists
        (pathJoin ((resolveOtherFolder env a).getD "") a.separator_pdf_name) = true →
      env.run (interfaceCommand gs a.printer_name 1
        (round2 (w * cmPerPoint) * pointsPerCm) (round2 (h * cmPerPoint) * pointsPerCm)
        (decide (w * cmPerPoint > h * cmPerPoint))
        (pathJoin ((resolveOtherFolder env a).getD "") a.separator_pdf_name)) =
          RunResult.err s2 →
      (print_sku_locally env a).logAppends =
        [⟨env.now, normalizeSkuName a.sku, a.quantity, a.printer_name,
          "Printed via Local Interface"⟩]
      ∧ s2 ∈ (print_sku_locally env a).messages)
    ∧ (penv.run (panelCommand pgs penv.printer penv.copies
        (ratTrunc (size.1 * 10)) (ratTrunc (size.2 * 10)) l penv.filePathText) =
          RunResult.err s3 →
      (panel_print_file penv).success = false
      ∧ (panel_print_file penv).logAppends = []
      ∧ (panel_print_file penv).messages = ["打印错误"])
    ∧ (print_sku_locally env3 a3).logAppends.length =
        ((print_sku_locally env3 a3).commandsRun.filter
          (fun c => decide (env3.run c = RunResult.ok))).length
    ∧ (panel_print_file penv).logAppends.length =
        ((panel_print_file penv).commandsRun.filter
          (fun c => decide (penv.run c = RunResult.ok))).length := by
  have hinfo := get_sku_info_eq env.sku a.sku folder w h hf hne hdir hex hpdf
  refine ⟨?_, ?_, ?_, ?_, print_sku_locally_log_count env3 a3,
    panel_print_file_log_count penv⟩
  · intro herr
    simp only [print_sku_locally, if_neg hq, hinfo, hgs, hgsne, hgse]
    rw [if_neg (by simp)]
    simp only [herr]
    simp
  · intro hsf
    simp only [print_sku_locally, if_neg hq, hinfo, hgs, hgsne, hgse]
    rw [if_neg (by simp)]
    simp only [hsf]
    simp
  · intro hok hsep hof hsn hsp herr2
    simp only [print_sku_locally, if_neg hq, hinfo, hgs, hgsne, hgse]
    rw [if_neg (by simp)]
    simp only [hok]
    simp only [hsep, hof, hsn, ne_eq, not_false_eq_true, decide_True, Bool.and_self,
      Bool.true_and, if_true, decide_not, Bool.not_false]
    simp only [hsp, if_true]
    simp only [herr2]
    simp
  · intro herr3
    exact panel_print_file_err_case penv size l pgs s3 hfp hfpe hana hpgs hpgsne herr3

/-- C4 witness: with always-failing oracles both flows fail, append nothing,
the local interface surfaces "boom" and the panel shows only the fixed dialog
label; with the oracle that fails only the 1-copy separator the log holds
exactly the main record and "sep failed" is surfaced; the ok-count
bookkeeping holds on the sample environments. -/
theorem c4_witness :
    ((print_sku_locally sampleEnvFail sampleArgs).success = false
     ∧ (print_sku_locally sampleEnvFail sampleArgs).logAppends = []
     ∧ "boom" ∈ (print_sku_locally sampleEnvFail sampleArgs).messages)
    ∧ ((print_sku_locally sampleEnv sampleArgs).logAppends =
        [⟨"2026-10-12 00:00:00", normalizeSkuName "SKU1", 2, "P",
          "Printed via Local Interface"⟩]
       ∧ "sep failed" ∈ (print_sku_locally sampleEnv sampleArgs).messages)
    ∧ ((panel_print_file samplePanelEnvFail).success = false
       ∧ (panel_print_file samplePanelEnvFail).logAppends = []
       ∧ (panel_print_file samplePanelEnvFail).messages = ["打印错误"])
    ∧ (print_sku_locally sampleEnv sampleArgs).logAppends.length =
        ((print_sku_locally sampleEnv sampleArgs).commandsRun.filter
          (fun c => decide (sampleEnv.run c = RunResult.ok))).length
    ∧ (panel_print_file samplePanelEnvFail).logAppends.length =
        ((panel_print_file samplePanelEnvFail).commandsRun.filter
          (fun c => decide (samplePanelEnvFail.run c = RunResult.ok))).length := by
  have hana : analyze_and_update_size
      (samplePanelEnvFail.openPdf samplePanelEnvFail.filePathText) =
      some ((254, 508), false) := by
    norm_num [samplePanelEnvFail, analyze_and_update_size, panelFactor, round1,
      roundHalfEven, ratFloor]
  have hcf := c4_failed_submission_no_log sampleEnvFail sampleArgs "root" 720 1440
    "gs" "boom" "x" (by decide) rfl (by decide) rfl rfl rfl rfl (by decide) rfl
    sampleEnv sampleArgs samplePanelEnvFail (254, 508) false "gs" "boom"
    (by decide) rfl hana rfl (by decide)
  have hcs := c4_failed_submission_no_log sampleEnv sampleArgs "root" 720 1440
    "gs" "x" "sep failed" (by decide) rfl (by decide) rfl rfl rfl rfl (by decide) rfl
    sampleEnv sampleArgs samplePanelEnvFail (254, 508) false "gs" "boom"
    (by decide) rfl hana rfl (by decide)
  exact ⟨hcf.1 rfl,
    hcs.2.2.1 (by decide) rfl (by decide) (by decide) rfl (by decide),
    hcf.2.2.2.1 rfl,
    hcs.2.2.2.2.1, hcs.2.2.2.2.2⟩

end PrinterManager
